import Mathlib

/-!
Verification of `pelican_bibtex.py` (pelican-bibtex plugin) against its
natural-language specification.

The file embeds, as executable Lean definitions:
  * the bibliographic record model (`Entry`),
  * the template combinator engine used by the formatters (the engine itself
    lives in the external `pybtex.style.template` library and is therefore
    modelled from the specification, §4.1/§4.2),
  * the three category formatters overridden in `MyStyle`
    (`format_article`, `format_unpublished`, `format_techreport`),
    `format_doi`, `format_title` and `format_url`, translated from the
    template expressions in the source,
  * the pipeline driver `add_publications` (year parsing, classification,
    sorting, context/log effects), translated from the source.

Machine-level effects (logging, file reads, raised exceptions) are made
explicit: `add_publications` returns an `Except` value carrying the updated
context, the log messages emitted and the files read; an `Except.error`
models an uncaught Python exception.
-/

/-- One bibliographic record: citation key, category string (BibTeX entry
type), field mapping and author list.  Authors are kept opaque (already
rendered names), as the spec's data model prescribes (§3). -/
structure Entry where
  key : String
  type : String
  fields : List (String × String)
  authors : List String
deriving DecidableEq, Repr

/-- Embeds `entry.fields.get(n)`: first binding of field `n`, if any. -/
def lookupField (e : Entry) (n : String) : Option String :=
  (e.fields.find? (fun p => p.1 == n)).map Prod.snd

/-- Modelled from the spec: the template combinator algebra of §4.1 (the
engine itself is `pybtex.style.template`, which is not part of the
repository's sources; only the template *expressions* built from it are).
Absence of a bare field is a first-class failure outcome that `optionalT`
and only `optionalT` converts to empty output; this is the one reading of
§4.1 under which the alternative selection described in §4.2 ("either
volume(number):pages ... or pages alone") comes out of the `first_of`
templates in the source.  N-ary `join`/`words`/`sentence`/`first_of` are
built from the binary `seqT`/`altT` by the list builders below. -/
inductive Template where
  | lit : String → Template
  | fieldT : String → Template
  | titleField : String → Template
  | namesT : Template
  | tagT : String → Template → Template
  | seqT : String → Template → Template → Template
  | sentenceOf : Template → Template
  | optionalT : Template → Template
  | altT : Template → Template → Template
  | href : Template → Template → Template
deriving DecidableEq, Repr

/-- Separator-join of two rendered pieces, skipping empty parts (§4.1:
"empty parts are skipped, not replaced by empty strings with stray
separators"). -/
def sjoin (sep a b : String) : String :=
  if a = "" then b else if b = "" then a else a ++ sep ++ b

/-- Modelled from the spec: evaluation of a template against a record
(§4.1).  `Except.error ()` is the "missing required field" outcome
(pybtex's `FieldIsMissing`); `optionalT` turns it into empty output. -/
def render (e : Entry) : Template → Except Unit String
  | .lit s => .ok s
  | .fieldT n =>
    match lookupField e n with
    | some v => .ok v
    | none => .error ()
  | .titleField n =>
    match lookupField e n with
    | some v => .ok (if v = "" then "" else "<b>" ++ v.capitalize ++ "</b>")
    | none => .error ()
  | .namesT => .ok (String.intercalate ", " e.authors)
  | .tagT t c =>
    (render e c).map fun s =>
      if s = "" then "" else "<" ++ t ++ ">" ++ s ++ "</" ++ t ++ ">"
  | .seqT sep a b => do
    let x ← render e a
    let y ← render e b
    .ok (sjoin sep x y)
  | .sentenceOf c =>
    (render e c).map fun s => if s = "" then "" else s ++ "."
  | .optionalT c =>
    .ok (match render e c with | .ok s => s | .error _ => "")
  | .altT a b => do
    let x ← render e a
    if x = "" then render e b else .ok x
  | .href u l => do
    let us ← render e u
    let ls ← render e l
    .ok (if us = "" then ""
         else "<a href=\x22" ++ us ++ "\x22>" ++ ls ++ "</a>")

/-- N-ary join with a separator, as a right fold over `seqT`. -/
def joinT (sep : String) : List Template → Template
  | [] => .lit ""
  | [t] => t
  | t :: ts => .seqT sep t (joinT sep ts)

/-- Embeds `words[...]`: join with a single space (§4.1). -/
def wordsT (ts : List Template) : Template := joinT " " ts

/-- Embeds `sentence[...]`: like words, with a terminating period appended only to
non-empty content (§4.1). -/
def sentenceT (ts : List Template) : Template := .sentenceOf (joinT " " ts)

/-- Embeds `first_of[...]`: first alternative producing non-empty output (§4.1). -/
def firstOfT : List Template → Template
  | [] => .lit ""
  | [t] => t
  | t :: ts => .altT t (firstOfT ts)

/-- Embeds `optional[...]`: children concatenated; a missing-field failure inside
becomes empty output. -/
def optionalJ (ts : List Template) : Template := .optionalT (joinT "" ts)

/-- Embeds `optional_field(n)` = `optional[field(n)]`. -/
def optional_field (n : String) : Template := .optionalT (.fieldT n)

/-- Modelled from the spec: unsrt's `pages` helper (imported by the source
from `pybtex.style.formatting.unsrt`, not itself part of the repository):
the value of the "pages" field (§4.2 renders it verbatim). -/
def pagesT : Template := .fieldT "pages"

/-- Modelled from the spec: unsrt's `date` helper (imported by the source,
not itself part of the repository): "the publication date" (§4.2), rendered
as the month and year words when present. -/
def dateT : Template :=
  wordsT [optional_field "month", optional_field "year"]

/-- Modelled from the spec: sequencing of the formatter segments ("→" in
§4.2); pybtex's `toplevel` container, imported by the source. -/
def toplevelT (ts : List Template) : Template := joinT " " ts

/-- Embeds `MyStyle.format_title` (source lines 127-136): the title field,
capitalized and wrapped in bold, as a sentence.  The bare `field` reference
makes the title a required field. -/
def format_title (which_field : String) : Template :=
  sentenceT [.titleField which_field]

/-- Embeds `MyStyle.format_doi` (source lines 122-125): "Kills doi printout" —
renders nothing, for every record. -/
def format_doi : Template := joinT "" []

/-- Embeds `MyStyle.format_url` (source lines 138-139): a bracketed hyperlink on
the "url" field whose visible label is the literal text "URL". -/
def format_url : Template :=
  joinT "" [.lit "[", .href (.fieldT "url") (.lit "URL"), .lit "]"]

/-- Modelled from the spec: `format_web_refs` (defined in pybtex's unsrt
style, not in the repository): a sentence of the optional URL reference and
the (suppressed, §4.2) DOI reference, using the source's `format_url` and
`format_doi` overrides. -/
def webRefsT : Template :=
  sentenceT [.optionalT format_url, .optionalT format_doi]

/-- Embeds the `volume_and_pages` template of `MyStyle.format_article` (source lines 56-69):
volume and pages with optional issue number, else pages only. -/
def volume_and_pages : Template :=
  firstOfT [
    optionalJ [joinT "" [.fieldT "volume",
                         optionalJ [.lit "(", .fieldT "number", .lit ")"],
                         .lit ":", pagesT]],
    optionalJ [wordsT [.lit "pages", pagesT]]]

/-- Embeds `MyStyle.format_article` (source lines 55-80). -/
def format_article : Template :=
  toplevelT [
    format_title "title",
    .namesT,
    sentenceT [.tagT "em" (.fieldT "journal"),
               .optionalT volume_and_pages,
               dateT],
    sentenceT [optional_field "note"],
    webRefsT]

/-- The type-or-"Unpublished" alternative of `MyStyle.format_unpublished`
(source lines 88-91). -/
def unpubTypeT : Template :=
  firstOfT [optional_field "type", .lit "Unpublished"]

/-- Embeds `MyStyle.format_unpublished` (source lines 82-99). -/
def format_unpublished : Template :=
  toplevelT [
    format_title "title",
    sentenceT [.namesT],
    sentenceT [wordsT [unpubTypeT, optional_field "number"], dateT],
    sentenceT [optional_field "note"],
    webRefsT]

/-- Embeds `MyStyle.format_techreport` (source lines 101-120).  Note the bare
`field('institution')` (line 113) next to `optional_field('address')`
(line 114): the institution is a required field for this template. -/
def format_techreport : Template :=
  toplevelT [
    format_title "title",
    sentenceT [.namesT],
    sentenceT [wordsT [firstOfT [optional_field "type", .lit "Technical Report"],
                       optional_field "number"],
               .fieldT "institution",
               optional_field "address",
               dateT],
    sentenceT [optional_field "note"],
    webRefsT]

/-- Modelled from the spec: the generic fallback formatter for all other
categories (§4.2, "unsorted list of standard fields": title, authors, date,
note, web references), supplied by the base unsrt style which is not part
of the repository. -/
def format_fallback : Template :=
  toplevelT [
    format_title "title",
    sentenceT [.namesT],
    sentenceT [dateT],
    sentenceT [optional_field "note"],
    webRefsT]

/-- Formatter dispatch on the category string (pybtex dispatches to
`format_<type>`; the source overrides article, unpublished and techreport,
every other category falls back to the base style). -/
def templateFor (ty : String) : Template :=
  if ty == "article" then format_article
  else if ty == "unpublished" then format_unpublished
  else if ty == "techreport" then format_techreport
  else format_fallback

/-- Formatting one record: evaluate the category's template against it
(`plain_style.format_entries` + `formatted_entry.text.render(html_backend)`
in the source, lines 172-196). -/
def formatEntry (e : Entry) : Except Unit String :=
  render e (templateFor e.type)

/-- Python exceptions that can escape `add_publications`:
`ValueError` from `int()` on an unparseable year string (source line 183),
and the missing-required-field error raised while formatting. -/
inductive PyErr where
  | valueError : PyErr
  | fieldIsMissing : PyErr
deriving DecidableEq, Repr

/-- Decimal value of a digit run; `none` on the first non-digit. -/
def digitsVal : List Char → Nat → Option Nat
  | [], acc => some acc
  | c :: cs, acc =>
    if c.isDigit then digitsVal cs (acc * 10 + (c.toNat - 48)) else none

/-- Sign and digits of a stripped integer literal. -/
def pyIntCore : List Char → Option Int
  | [] => none
  | '+' :: cs => if cs = [] then none else (digitsVal cs 0).map Int.ofNat
  | '-' :: cs => if cs = [] then none else (digitsVal cs 0).map (fun n => -(n : Int))
  | cs => (digitsVal cs 0).map Int.ofNat

/-- Leading-whitespace strip. -/
def dropWS : List Char → List Char
  | [] => []
  | c :: cs => if c.isWhitespace then dropWS cs else c :: cs

/-- Python's `int()` applied to a string: surrounding whitespace stripped,
an optional single sign, then one or more decimal digits; anything else
raises `ValueError` (`none` here). -/
def pyInt? (s : String) : Option Int :=
  pyIntCore (dropWS (dropWS s.data.reverse).reverse)

/-- Source lines 182-185:
`try: year = int(entry.fields.get('year', None)) except TypeError: year = None`.
An absent field makes `int(None)` raise `TypeError`, which is caught; a
present but unparseable field makes `int(...)` raise `ValueError`, which
the `except TypeError` clause does *not* catch, so it escapes. -/
def computeYear : Option String → Except PyErr (Option Int)
  | none => .ok none
  | some s =>
    match pyInt? s with
    | some n => .ok (some n)
    | none => .error .valueError

/-- Modelled from the spec: the Re-serializer (§4.4) — pybtex's `Writer`,
used at source lines 192-194 but not itself part of the repository: one
canonical bibliography-file fragment for the single entry (same key,
category, fields, authors). -/
def serializeBib (e : Entry) : String :=
  "@" ++ e.type ++ "\x7b" ++ e.key ++
    String.join (e.fields.map
      (fun p => ",\n  " ++ p.1 ++ " = \x7b" ++ p.2 ++ "\x7d")) ++
    (if e.authors.isEmpty then ""
     else ",\n  author = \x7b" ++ String.intercalate " and " e.authors ++ "\x7d") ++
    "\n\x7d\n"

/-- One output tuple `(key, text, bibtex, sort_key)` (source line 198). -/
structure Tup where
  key : String
  text : String
  bibtex : String
  sort_key : Option Int × String
deriving DecidableEq, Repr

/-- Comparison of sort keys `(year, journal)`: lexicographic, with the
absent year (`None`) strictly below every present year — the ordering the
spec fixes as deliberate policy (§9) and the one Python 2's mixed-type
order gives the source's `sorted(..., key=itemgetter(-1))`. -/
def skLE (a b : Option Int × String) : Bool :=
  match a.1, b.1 with
  | none, none => decide (a.2 ≤ b.2)
  | none, some _ => true
  | some _, none => false
  | some x, some y => if x = y then decide (a.2 ≤ b.2) else decide (x ≤ y)

/-- Descending order on tuples: `a` may precede `b` when `a`'s sort key is
at least `b`'s. -/
def skGE (a b : Tup) : Prop := skLE b.sort_key a.sort_key = true

instance skGE_dec : DecidableRel skGE := fun a b => by
  unfold skGE
  infer_instance

/-- Embeds `sorted(bucket, key=itemgetter(-1), reverse=True)` (source lines
207-215): a stable sort, descending in the sort key.  Stable sorts under
one total preorder all agree, so the structural insertion sort models
Python's stable `sorted` faithfully. -/
def sortDesc (l : List Tup) : List Tup := l.insertionSort skGE

/-- Processing of one record inside the loop (source lines 178-198):
format it (a missing required field raises), compute the year (an
unparseable year raises `ValueError`), re-serialize, and build the tuple
with sort key `(year, entry.fields.get('journal', ""))`. -/
def procEntry (e : Entry) : Except PyErr Tup := do
  let text ← (formatEntry e).mapError fun _ => PyErr.fieldIsMissing
  let y ← computeYear (lookupField e "year")
  .ok ⟨e.key, text, serializeBib e,
       (y, (lookupField e "journal").getD "")⟩

/-- Total variant of `procEntry`, equal to it whenever it succeeds. -/
def procTotal (e : Entry) : Tup :=
  ⟨e.key, (formatEntry e).toOption.getD "", serializeBib e,
   ((lookupField e "year").bind pyInt?,
    (lookupField e "journal").getD "")⟩

/-- The classification loop (source lines 175-205): each record's tuple is
appended to exactly one of the three buckets, decided by `entry.type`
("article" → publications, "unpublished" → unpublished, everything else →
reports); the first record whose processing raises aborts the whole run. -/
def runPipeline : List Entry → Except PyErr (List Tup × List Tup × List Tup)
  | [] => .ok ([], [], [])
  | e :: es => do
    let t ← procEntry e
    let (p, r, u) ← runPipeline es
    if e.type == "article" then .ok (t :: p, r, u)
    else if e.type == "unpublished" then .ok (p, r, t :: u)
    else .ok (p, t :: r, u)

/-- The three context keys the plugin may create (`generator.context[...]`,
source lines 207-215); `none` means the key is absent from the context. -/
structure Ctx where
  publications : Option (List Tup)
  reports : Option (List Tup)
  unpublished : Option (List Tup)
deriving DecidableEq, Repr

/-- Outcome of the external parser on one file: a structured parse error
with a human-readable message, or the ordered list of records (§6). -/
inductive ParseResult where
  | err : String → ParseResult
  | ok : List Entry → ParseResult
deriving DecidableEq, Repr

/-- The warning emitted on whole-file parse failure (source lines 164-166):
`'`pelican_bibtex` failed to parse file %s: %s' % (refs_file, str(e))`. -/
def warnMsg (path msg : String) : String :=
  "`pelican_bibtex` failed to parse file " ++ path ++ ": " ++ msg

/-- Embeds `add_publications` (source lines 142-215), with its effects explicit.
Inputs: the `PUBLICATIONS_SRC` setting (`none` = key absent), the external
parser, the current context and log.  Output on normal return: the updated
context, the log, and the list of files read; `Except.error` models an
uncaught Python exception escaping to the caller. -/
def add_publications (settingsSrc : Option String)
    (parseFile : String → ParseResult) (ctx : Ctx) (logs : List String) :
    Except PyErr (Ctx × List String × List String) :=
  match settingsSrc with
  | none => .ok (ctx, logs, [])
  | some path =>
    match parseFile path with
    | .err msg => .ok (ctx, logs ++ [warnMsg path msg], [path])
    | .ok entries => do
      let (p, r, u) ← runPipeline entries
      .ok ({ publications := some (sortDesc p),
             reports := some (sortDesc r),
             unpublished := some (sortDesc u) },
           logs, [path])

/-- Boolean list-prefix test (used by the executable substring test). -/
def prefOf : List Char → List Char → Bool
  | [], _ => true
  | _ :: _, [] => false
  | a :: as, b :: bs => a == b && prefOf as bs

/-- Boolean contiguous-sublist test. -/
def subOf (n : List Char) : List Char → Bool
  | [] => prefOf n []
  | h :: t => prefOf n (h :: t) || subOf n t

/-- Executable "does `hay` contain `needle` as a substring". -/
def strSubB (needle hay : String) : Bool := subOf needle.data hay.data

/-- Propositional "does `hay` contain `needle` as a substring". -/
def strSub (needle hay : String) : Prop := ∃ a b, hay = a ++ needle ++ b

/-- The field names a template reads from the record. -/
def fieldsOf : Template → List String
  | .lit _ => []
  | .fieldT n => [n]
  | .titleField n => [n]
  | .namesT => []
  | .tagT _ c => fieldsOf c
  | .seqT _ a b => fieldsOf a ++ fieldsOf b
  | .sentenceOf c => fieldsOf c
  | .optionalT c => fieldsOf c
  | .altT a b => fieldsOf a ++ fieldsOf b
  | .href u l => fieldsOf u ++ fieldsOf l

/-- The record with field "doi" bound to `v` (and any previous "doi"
binding shadowed away). -/
def withDoi (e : Entry) (v : String) : Entry :=
  { e with fields := ("doi", v) :: e.fields.filter (fun p => p.1 != "doi") }

/-- The record with no "doi" field at all. -/
def withoutDoi (e : Entry) : Entry :=
  { e with fields := e.fields.filter (fun p => p.1 != "doi") }

/-- Templates whose rendering never fails (every bare field reference is
under an `optionalT`). -/
def noFail : Template → Bool
  | .lit _ => true
  | .fieldT _ => false
  | .titleField _ => false
  | .namesT => true
  | .tagT _ c => noFail c
  | .seqT _ a b => noFail a && noFail b
  | .sentenceOf c => noFail c
  | .optionalT _ => true
  | .altT a b => noFail a && noFail b
  | .href u l => noFail u && noFail l

/-- The spec's own description of the volume-and-pages alternative (§4.2,
C7): "volume(number):pages" when volume and pages are present (the
parenthesized issue number only when present), else the word "pages" with
the pages value when pages are present, else nothing. -/
def specVolumeAndPages (e : Entry) : String :=
  match lookupField e "volume", lookupField e "pages" with
  | some v, some p =>
    v ++ ((match lookupField e "number" with
           | some n => "(" ++ (n ++ ")")
           | none => "") ++ (":" ++ p))
  | _, some p => if p = "" then "pages" else "pages " ++ p
  | _, _ => ""

/-- The C7 scenario record: an article with year 2020, journal "ACM
Computing Surveys", volume 52, number 4, pages 1-35 (a title and an author
are added, since those fields are required by the article template). -/
def scenarioArticle : Entry :=
  { key := "surveys2020"
    type := "article"
    fields := [("title", "A survey"), ("year", "2020"),
               ("journal", "ACM Computing Surveys"), ("volume", "52"),
               ("number", "4"), ("pages", "1-35")]
    authors := ["Ada Lovelace"] }

instance exceptDecEq {ε α : Type} [DecidableEq ε] [DecidableEq α] :
    DecidableEq (Except ε α) := fun a b =>
  match a, b with
  | .ok x, .ok y =>
    if h : x = y then .isTrue (by rw [h]) else .isFalse (by simp [h])
  | .error x, .error y =>
    if h : x = y then .isTrue (by rw [h]) else .isFalse (by simp [h])
  | .ok _, .error _ => .isFalse (by simp)
  | .error _, .ok _ => .isFalse (by simp)

/-- The spec's description of the type-or-"Unpublished" choice, refined by
the `first_of` semantics (§4.1: first *non-empty* alternative): a present
non-empty "type" value is rendered; an absent or empty one falls back to
the literal "Unpublished". -/
def specUnpubType (e : Entry) : String :=
  match lookupField e "type" with
  | some v => if v = "" then "Unpublished" else v
  | none => "Unpublished"

/-- A technical report with authors, title and year but no institution. -/
def techNoInstitution : Entry :=
  { key := "tr1", type := "techreport",
    fields := [("title", "Trees"), ("year", "2001")],
    authors := ["A. Author"] }

/-- An unpublished record with no "type" field. -/
def unpubNoType : Entry :=
  { key := "u1", type := "unpublished",
    fields := [("title", "Drafts"), ("year", "2002")],
    authors := ["B. Author"] }

/-- The same unpublished record with a present-but-empty "type" field. -/
def unpubEmptyType : Entry :=
  { key := "u1", type := "unpublished",
    fields := [("title", "Drafts"), ("year", "2002"), ("type", "")],
    authors := ["B. Author"] }

def skLE_trans (a b c : Option Int × String) (h1 : skLE a b = true)
    (h2 : skLE b c = true) : skLE a c = true := by
  obtain ⟨ya, va⟩ := a
  obtain ⟨yb, vb⟩ := b
  obtain ⟨yc, vc⟩ := c
  cases ya <;> cases yb <;> cases yc
  · simp only [skLE, decide_eq_true_eq] at h1 h2 ⊢
    exact le_trans h1 h2
  · simp [skLE]
  · simp [skLE] at h2
  · simp [skLE]
  · simp [skLE] at h1
  · simp [skLE] at h1
  · simp [skLE] at h2
  · rename_i x y z
    simp only [skLE] at h1 h2 ⊢
    by_cases hxy : x = y
    · subst hxy
      rw [if_pos rfl] at h1
      by_cases hyz : x = z
      · subst hyz
        rw [if_pos rfl] at h2 ⊢
        simp only [decide_eq_true_eq] at h1 h2 ⊢
        exact le_trans h1 h2
      · rw [if_neg hyz] at h2 ⊢
        exact h2
    · rw [if_neg hxy] at h1
      by_cases hyz : y = z
      · subst hyz
        rw [if_neg hxy]
        exact h1
      · rw [if_neg hyz] at h2
        simp only [decide_eq_true_eq] at h1 h2
        have hxz : x ≠ z := by omega
        rw [if_neg hxz]
        simp only [decide_eq_true_eq]
        omega

def skLE_total (a b : Option Int × String) :
    (skLE a b || skLE b a) = true := by
  obtain ⟨ya, va⟩ := a
  obtain ⟨yb, vb⟩ := b
  cases ya <;> cases yb
  · simp only [skLE, Bool.or_eq_true, decide_eq_true_eq]
    exact le_total va vb
  · simp [skLE]
  · simp [skLE]
  · rename_i x y
    simp only [skLE]
    by_cases hxy : x = y
    · subst hxy
      rw [if_pos rfl, if_pos rfl]
      simp only [Bool.or_eq_true, decide_eq_true_eq]
      exact le_total va vb
    · rw [if_neg hxy, if_neg (fun h => hxy h.symm)]
      simp only [Bool.or_eq_true, decide_eq_true_eq]
      omega

instance skGE_isTotal : IsTotal Tup skGE :=
  ⟨fun a b => by
    have h := skLE_total a.sort_key b.sort_key
    rcases (Bool.or_eq_true _ _).mp h with h1 | h1
    · exact Or.inr h1
    · exact Or.inl h1⟩

instance skGE_isTrans : IsTrans Tup skGE :=
  ⟨fun a b c hab hbc => skLE_trans c.sort_key b.sort_key a.sort_key hbc hab⟩

/-- A minimal article with a present year. -/
def artYear : Entry :=
  { key := "a2020", type := "article",
    fields := [("title", "Alpha"), ("journal", "J"), ("year", "2020")],
    authors := ["X. Writer"] }

/-- A minimal article with no year field (its sort key year is `none`). -/
def artNoYear : Entry :=
  { key := "anone", type := "article",
    fields := [("title", "Beta"), ("journal", "J")],
    authors := ["X. Writer"] }

/-- A minimal record of a category with no dedicated formatter. -/
def miscEntry : Entry :=
  { key := "m1", type := "misc",
    fields := [("title", "Gamma"), ("year", "1999")],
    authors := ["Y. Writer"] }

/-- A record whose "year" field is present but not an integer. -/
def badYearEntry : Entry :=
  { key := "b1", type := "misc",
    fields := [("title", "Notes"), ("year", "n.d.")],
    authors := ["C. Author"] }

/-- Rendering reads a record only through its author list and the fields
the template names. -/
theorem render_congr (e1 e2 : Entry) (hA : e1.authors = e2.authors)
    (t : Template)
    (h : ∀ n ∈ fieldsOf t, lookupField e1 n = lookupField e2 n) :
    render e1 t = render e2 t := by
  induction t with
  | lit s => rfl
  | fieldT n =>
    have := h n (by simp [fieldsOf])
    simp [render, this]
  | titleField n =>
    have := h n (by simp [fieldsOf])
    simp [render, this]
  | namesT => simp [render, hA]
  | tagT tg c ih =>
    have := ih (fun n hn => h n (by simpa [fieldsOf] using hn))
    simp [render, this]
  | seqT sep a b iha ihb =>
    have ha := iha (fun n hn => h n (by simp [fieldsOf]; exact Or.inl hn))
    have hb := ihb (fun n hn => h n (by simp [fieldsOf]; exact Or.inr hn))
    simp [render, ha, hb]
  | sentenceOf c ih =>
    have := ih (fun n hn => h n (by simpa [fieldsOf] using hn))
    simp [render, this]
  | optionalT c ih =>
    have := ih (fun n hn => h n (by simpa [fieldsOf] using hn))
    simp [render, this]
  | altT a b iha ihb =>
    have ha := iha (fun n hn => h n (by simp [fieldsOf]; exact Or.inl hn))
    have hb := ihb (fun n hn => h n (by simp [fieldsOf]; exact Or.inr hn))
    simp [render, ha, hb]
  | href u l ihu ihl =>
    have hu := ihu (fun n hn => h n (by simp [fieldsOf]; exact Or.inl hn))
    have hl := ihl (fun n hn => h n (by simp [fieldsOf]; exact Or.inr hn))
    simp [render, hu, hl]

theorem lookup_withDoi (e : Entry) (v n : String) (hn : n ≠ "doi") :
    lookupField (withDoi e v) n = lookupField (withoutDoi e) n := by
  have hd : ("doi" == n) = false := by
    simp only [beq_eq_false_iff_ne, ne_eq]
    exact fun h => hn h.symm
  simp [lookupField, withDoi, withoutDoi, List.find?, hd]

theorem doi_not_in_fields (ty : String) : "doi" ∉ fieldsOf (templateFor ty) := by
  unfold templateFor
  repeat' split
  all_goals decide

theorem sjoin_nil_sep (a b : String) : sjoin "" a b = a ++ b := by
  unfold sjoin
  split <;> rename_i h
  · subst h; simp
  · split <;> rename_i h2
    · subst h2; simp
    · simp

@[simp]
theorem exBindOk {α β ε : Type} (x : α) (k : α → Except ε β) :
    (Except.ok x >>= k) = k x := rfl

@[simp]
theorem exBindErr {α β ε : Type} (er : ε) (k : α → Except ε β) :
    ((Except.error er : Except ε α) >>= k) = .error er := rfl

@[simp]
theorem exMapOk {α β ε : Type} (f : α → β) (x : α) :
    Except.map f (Except.ok x : Except ε α) = .ok (f x) := rfl

@[simp]
theorem exMapErr {α β ε : Type} (f : α → β) (er : ε) :
    Except.map f (Except.error er : Except ε α) = .error er := rfl

theorem render_noFail (e : Entry) (t : Template) (h : noFail t = true) :
    ∃ s, render e t = .ok s := by
  induction t with
  | lit s => exact ⟨s, rfl⟩
  | fieldT n => simp [noFail] at h
  | titleField n => simp [noFail] at h
  | namesT => exact ⟨_, rfl⟩
  | tagT tg c ih =>
    obtain ⟨s, hs⟩ := ih (by simpa [noFail] using h)
    refine ⟨if s = "" then "" else "<" ++ tg ++ ">" ++ s ++ "</" ++ tg ++ ">", ?_⟩
    simp [render, hs]
  | seqT sep a b iha ihb =>
    simp [noFail] at h
    obtain ⟨x, hx⟩ := iha h.1
    obtain ⟨y, hy⟩ := ihb h.2
    refine ⟨sjoin sep x y, ?_⟩
    simp [render, hx, hy]
  | sentenceOf c ih =>
    obtain ⟨s, hs⟩ := ih (by simpa [noFail] using h)
    refine ⟨if s = "" then "" else s ++ ".", ?_⟩
    simp [render, hs]
  | optionalT c ih => exact ⟨_, rfl⟩
  | altT a b iha ihb =>
    simp [noFail] at h
    obtain ⟨x, hx⟩ := iha h.1
    obtain ⟨y, hy⟩ := ihb h.2
    by_cases hx0 : x = ""
    · refine ⟨y, ?_⟩
      simp [render, hx, hx0, hy]
    · refine ⟨x, ?_⟩
      simp [render, hx, hx0]
  | href u l ihu ihl =>
    simp [noFail] at h
    obtain ⟨x, hx⟩ := ihu h.1
    obtain ⟨y, hy⟩ := ihl h.2
    refine ⟨if x = "" then "" else "<a href=\x22" ++ x ++ "\x22>" ++ y ++ "</a>", ?_⟩
    simp [render, hx, hy]

/-- C6: for every record and every category, the rendered citation text
never contains the content of a "doi" field: the record with a "doi" field
(of any value) and the record without one produce byte-identical rendered
output. -/
theorem doi_suppressed (e : Entry) (v : String) :
    formatEntry (withDoi e v) = formatEntry (withoutDoi e) := by
  show render (withDoi e v) (templateFor e.type)
     = render (withoutDoi e) (templateFor e.type)
  exact render_congr (withDoi e v) (withoutDoi e) rfl (templateFor e.type)
    (fun n hn => lookup_withDoi e v n (fun h => doi_not_in_fields e.type (h ▸ hn)))

theorem appendColonNe (a b c : String) : a ++ (b ++ (":" ++ c)) ≠ "" := by
  intro h
  have h2 := congrArg String.length h
  simp [String.length_append] at h2
  exact absurd h2.2.2.1 (by decide)

theorem appendColonNe2 (a c : String) : a ++ (":" ++ c) ≠ "" := by
  intro h
  have h2 := congrArg String.length h
  simp [String.length_append] at h2
  exact absurd h2.2.1 (by decide)

theorem sjoinWordPages (p : String) :
    sjoin " " "pages" p = if p = "" then "pages" else "pages " ++ p := by
  unfold sjoin
  rw [if_neg (by decide)]
  split
  · rfl
  · rfl

theorem volume_and_pages_eval (e : Entry) :
    render e volume_and_pages = .ok (specVolumeAndPages e) := by
  unfold volume_and_pages specVolumeAndPages
  cases hv : lookupField e "volume" <;> cases hp : lookupField e "pages" <;>
    cases hn : lookupField e "number" <;>
  simp [firstOfT, optionalJ, joinT, wordsT, pagesT, render, sjoin_nil_sep,
        sjoinWordPages, hv, hp, hn, appendColonNe, appendColonNe2]

/-- C7: the article formatter's volume-and-pages part renders exactly as
the spec describes it — "volume(number):pages" when a volume (and pages)
is present, the parenthesized issue number only when present, else the
word "pages" with the pages value — and the scenario record (year 2020,
journal "ACM Computing Surveys", volume 52, number 4, pages "1-35")
renders a sentence containing "ACM Computing Surveys", "52(4):1-35" and
the year. -/
theorem article_format_ok :
    (∀ e : Entry, render e volume_and_pages = .ok (specVolumeAndPages e)) ∧
    strSubB "ACM Computing Surveys"
      ((formatEntry scenarioArticle).toOption.getD "") = true ∧
    strSubB "52(4):1-35" ((formatEntry scenarioArticle).toOption.getD "") = true ∧
    strSubB "2020" ((formatEntry scenarioArticle).toOption.getD "") = true :=
  ⟨volume_and_pages_eval, by decide, by decide, by decide⟩

@[simp]
theorem exIsOkIte {α ε : Type} (c : Prop) [Decidable c] (x y : Except ε α) :
    (if c then x else y).isOk = if c then x.isOk else y.isOk := by
  split <;> rfl

@[simp]
theorem exIsOkOk {α ε : Type} (x : α) : (Except.ok x : Except ε α).isOk = true := rfl

@[simp]
theorem exIsOkErr {α ε : Type} (er : ε) : (Except.error er : Except ε α).isOk = false := rfl

@[simp]
theorem exBindIte {α β ε : Type} (c : Prop) [Decidable c] (x y : Except ε α)
    (k : α → Except ε β) :
    ((if c then x else y) >>= k) = if c then x >>= k else y >>= k := by
  split <;> rfl

@[simp]
theorem exMapIte {α β ε : Type} (c : Prop) [Decidable c] (x y : Except ε α)
    (f : α → β) :
    Except.map f (if c then x else y) = if c then Except.map f x else Except.map f y := by
  split <;> rfl

theorem unpubType_eval (e : Entry) :
    render e unpubTypeT = .ok (specUnpubType e) := by
  unfold unpubTypeT specUnpubType
  cases h : lookupField e "type" <;>
    simp [firstOfT, optional_field, render, h]
  split <;> simp

/-- C3 counterexample: formatting is not total — a technical-report record
with no "institution" field fails to format (the bare `field('institution')`
reference raises pybtex's `FieldIsMissing`), rather than rendering with the
institution segment omitted. -/
theorem techreport_missing_institution_raises :
    formatEntry techNoInstitution = .error () := by decide

/-- C3 (amended): formatting a technical report degrades every missing
*optional* field to omitted content, but its two bare field references make
"title" and "institution" required: formatting succeeds exactly when both
are present. -/
theorem techreport_renders_iff_title_institution (e : Entry) :
    (render e format_techreport).isOk
      = ((lookupField e "title").isSome && (lookupField e "institution").isSome) := by
  cases hT : lookupField e "title" <;> cases hI : lookupField e "institution" <;>
  simp [format_techreport, toplevelT, sentenceT, joinT, wordsT, firstOfT,
        optional_field, format_title, dateT, webRefsT, format_url, format_doi,
        optionalJ, render, hT, hI]

/-- C8 counterexample: an unpublished record whose "type" field is present
with the empty value does not get its value rendered in place of
"Unpublished": its type position renders the literal "Unpublished" (the
`first_of` skips the empty alternative), and the whole record renders
byte-identically to the same record with no "type" field at all. -/
theorem unpub_empty_type_not_rendered :
    lookupField unpubEmptyType "type" = some "" ∧
    render unpubEmptyType unpubTypeT = .ok "Unpublished" ∧
    formatEntry unpubEmptyType = formatEntry unpubNoType := by
  refine ⟨rfl, by decide, by decide⟩

/-- C8 (amended): the type position of the unpublished formatter renders a
present *non-empty* "type" value, and the literal "Unpublished" when the
field is absent or empty; in particular a record with no "type" field
renders the word "Unpublished". -/
theorem unpub_type_position :
    (∀ e : Entry, render e unpubTypeT = .ok (specUnpubType e)) ∧
    strSubB "Unpublished" ((formatEntry unpubNoType).toOption.getD "") = true :=
  ⟨unpubType_eval, by decide⟩

/-- C9: with no `PUBLICATIONS_SRC` configured, `add_publications` returns
immediately: it reads no file, emits no log message, raises nothing, and
leaves the host context unchanged. -/
theorem no_src_noop (parseFile : String → ParseResult) (ctx : Ctx)
    (logs : List String) :
    add_publications none parseFile ctx logs = .ok (ctx, logs, []) := rfl

/-- C5: a whole-file parse failure makes `add_publications` return normally
with the context untouched (no buckets), exactly one new log entry, and
that warning contains both the source path and the parser's error text. -/
theorem parse_failure_warns (path msg : String)
    (parseFile : String → ParseResult) (ctx : Ctx) (logs : List String)
    (h : parseFile path = .err msg) :
    add_publications (some path) parseFile ctx logs
      = .ok (ctx, logs ++ [warnMsg path msg], [path]) ∧
    strSub path (warnMsg path msg) ∧ strSub msg (warnMsg path msg) := by
  refine ⟨by simp [add_publications, h],
          ⟨"`pelican_bibtex` failed to parse file ", ": " ++ msg, ?_⟩,
          ⟨"`pelican_bibtex` failed to parse file " ++ path ++ ": ", "", ?_⟩⟩
  · simp [warnMsg, String.append_assoc]
  · simp [warnMsg, String.append_assoc]

/-- C5 witness: the parse-failure behaviour at a concrete run. -/
theorem parse_failure_warns_witness :
    add_publications (some "pubs.bib") (fun _ => .err "syntax error, line 3")
        ⟨none, none, none⟩ []
      = .ok (⟨none, none, none⟩,
             [warnMsg "pubs.bib" "syntax error, line 3"], ["pubs.bib"]) ∧
    strSub "pubs.bib" (warnMsg "pubs.bib" "syntax error, line 3") ∧
    strSub "syntax error, line 3" (warnMsg "pubs.bib" "syntax error, line 3") :=
  parse_failure_warns "pubs.bib" "syntax error, line 3"
    (fun _ => .err "syntax error, line 3") ⟨none, none, none⟩ [] rfl

/-- C1: contrary to the spec, a present-but-unparseable "year" field is
*not* treated like an absent one: the absent case maps to None (the
`except TypeError` catches `int(None)`), but `int('n.d.')` raises
`ValueError`, which nothing catches, so it escapes to the caller. -/
theorem year_unparseable_raises :
    computeYear (some "n.d.") = .error .valueError ∧
    computeYear none = .ok none := by
  refine ⟨by decide, rfl⟩

theorem sortDesc_sorted (l : List Tup) : List.Chain' skGE (sortDesc l) :=
  (List.sorted_insertionSort skGE l).chain'

theorem computeYear_ok (o : Option String) (y : Option Int)
    (h : computeYear o = .ok y) : y = o.bind pyInt? := by
  cases o with
  | none =>
    simp only [computeYear] at h
    cases h
    rfl
  | some s =>
    cases hp : pyInt? s <;> rw [computeYear] at h <;> rw [hp] at h
    · cases h
    · cases h
      simp [hp]

theorem procEntry_ok (e : Entry) (t : Tup) (h : procEntry e = .ok t) :
    t = procTotal e := by
  unfold procEntry at h
  cases hf : formatEntry e <;> rw [hf] at h
  · simp [Except.mapError] at h
  · rename_i text
    cases hy : computeYear (lookupField e "year") <;> rw [hy] at h
    · simp [Except.mapError] at h
    · rename_i y
      simp only [Except.mapError, exBindOk] at h
      cases h
      simp [procTotal, hf, Except.toOption,
            computeYear_ok (lookupField e "year") y hy]

/-- C4: on a successful run, the classification loop puts exactly one
output tuple per record into exactly one bucket, decided purely by the
record's category string: "article" records make up the publications
bucket, "unpublished" records the unpublished bucket, and every other
record the reports bucket, each in input order; the bucket sizes add up to
the number of records. -/
theorem bucket_classification (entries : List Entry) (p r u : List Tup)
    (h : runPipeline entries = .ok (p, r, u)) :
    p = (entries.filter (fun e => e.type == "article")).map procTotal ∧
    u = (entries.filter (fun e => e.type == "unpublished")).map procTotal ∧
    r = (entries.filter
          (fun e => !(e.type == "article") && !(e.type == "unpublished"))).map procTotal ∧
    p.length + r.length + u.length = entries.length := by
  induction entries generalizing p r u with
  | nil =>
    simp only [runPipeline] at h
    cases h
    simp
  | cons e es ih =>
    rw [runPipeline] at h
    cases hpe : procEntry e <;> rw [hpe] at h
    · simp at h
    · rename_i t
      cases hrp : runPipeline es <;> rw [hrp] at h
      · simp at h
      · rename_i triple
        obtain ⟨p', r', u'⟩ := triple
        obtain ⟨hp', hu', hr', hl⟩ := ih p' r' u' hrp
        have ht : t = procTotal e := procEntry_ok e t hpe
        simp only [exBindOk] at h
        by_cases ha : e.type = "article"
        · rw [if_pos (by simp [ha])] at h
          cases h
          refine ⟨?_, ?_, ?_, ?_⟩
          · simp [List.filter_cons, ha, hp', ht]
          · simp [List.filter_cons, ha, hu']
          · simp [List.filter_cons, ha, hr']
          · simp only [List.length_cons]
            omega
        · rw [if_neg (by simp [ha])] at h
          by_cases hb : e.type = "unpublished"
          · rw [if_pos (by simp [hb])] at h
            cases h
            refine ⟨?_, ?_, ?_, ?_⟩
            · simp [List.filter_cons, ha, hb, hp']
            · simp [List.filter_cons, ha, hb, hu', ht]
            · simp [List.filter_cons, ha, hb, hr']
            · simp only [List.length_cons]
              omega
          · rw [if_neg (by simp [hb])] at h
            cases h
            refine ⟨?_, ?_, ?_, ?_⟩
            · simp [List.filter_cons, ha, hb, hp']
            · simp [List.filter_cons, ha, hb, hu']
            · simp [List.filter_cons, ha, hb, hr', ht]
            · simp only [List.length_cons]
              omega

/-- C2: after any successful run, each of the three context buckets is
sorted descending in the (year, venue) sort key — adjacent pairs (a, b)
satisfy sortKey(a) ≥ sortKey(b) — and the key order places an absent year
strictly below every present year and breaks year ties by the venue
string. -/
theorem buckets_sorted_desc :
    (∀ (path : String) (parseFile : String → ParseResult)
       (entries : List Entry) (ctx ctx2 : Ctx) (logs logs2 rs : List String)
       (lp lr lu : List Tup),
       parseFile path = .ok entries →
       add_publications (some path) parseFile ctx logs = .ok (ctx2, logs2, rs) →
       ctx2.publications = some lp → ctx2.reports = some lr →
       ctx2.unpublished = some lu →
       List.Chain' skGE lp ∧ List.Chain' skGE lr ∧ List.Chain' skGE lu) ∧
    (∀ (n : Int) (v w : String),
       skLE (none, v) (some n, w) = true ∧ skLE (some n, w) (none, v) = false) ∧
    (∀ (y : Int) (v w : String),
       skLE (some y, v) (some y, w) = decide (v ≤ w)) := by
  refine ⟨?_, ?_, ?_⟩
  · intro path parseFile entries ctx ctx2 logs logs2 rs lp lr lu hp h h1 h2 h3
    simp only [add_publications, hp] at h
    cases hrp : runPipeline entries <;> rw [hrp] at h
    · simp at h
    · rename_i triple
      obtain ⟨p, r, u⟩ := triple
      simp only [exBindOk] at h
      cases h
      cases h1
      cases h2
      cases h3
      exact ⟨sortDesc_sorted p, sortDesc_sorted r, sortDesc_sorted u⟩
  · intro n v w
    exact ⟨rfl, rfl⟩
  · intro y v w
    simp [skLE]

/-- C2 witness: the sortedness theorem applied to a concrete run holding
an absent-year article, a present-year article, a report and an
unpublished record. -/
theorem buckets_sorted_desc_witness :
    List.Chain' skGE (sortDesc [procTotal artNoYear, procTotal artYear]) ∧
    List.Chain' skGE (sortDesc [procTotal miscEntry]) ∧
    List.Chain' skGE (sortDesc [procTotal unpubNoType]) :=
  buckets_sorted_desc.1 "pubs.bib"
    (fun _ => .ok [artNoYear, artYear, miscEntry, unpubNoType])
    [artNoYear, artYear, miscEntry, unpubNoType]
    ⟨none, none, none⟩
    ⟨some (sortDesc [procTotal artNoYear, procTotal artYear]),
     some (sortDesc [procTotal miscEntry]),
     some (sortDesc [procTotal unpubNoType])⟩
    [] [] ["pubs.bib"]
    (sortDesc [procTotal artNoYear, procTotal artYear])
    (sortDesc [procTotal miscEntry])
    (sortDesc [procTotal unpubNoType])
    rfl (by decide) rfl rfl rfl

/-- C4 witness: the classification theorem at a concrete successful run
with two articles, a misc record and an unpublished record. -/
theorem bucket_classification_witness :
    [procTotal artNoYear, procTotal artYear]
      = (([artNoYear, artYear, miscEntry, unpubNoType].filter
           (fun e => e.type == "article")).map procTotal) ∧
    [procTotal unpubNoType]
      = (([artNoYear, artYear, miscEntry, unpubNoType].filter
           (fun e => e.type == "unpublished")).map procTotal) ∧
    [procTotal miscEntry]
      = (([artNoYear, artYear, miscEntry, unpubNoType].filter
           (fun e => !(e.type == "article") && !(e.type == "unpublished"))).map
          procTotal) ∧
    [procTotal artNoYear, procTotal artYear].length
      + [procTotal miscEntry].length + [procTotal unpubNoType].length
      = [artNoYear, artYear, miscEntry, unpubNoType].length :=
  bucket_classification [artNoYear, artYear, miscEntry, unpubNoType]
    [procTotal artNoYear, procTotal artYear] [procTotal miscEntry]
    [procTotal unpubNoType] (by decide)

/-- C10 counterexample: a run whose parse succeeds but which holds a
record with an unparseable year raises `ValueError` out of
`add_publications` before the context assignments are reached — none of
the three keys is created even though the whole file parsed. -/
theorem parse_ok_but_no_keys :
    add_publications (some "pubs.bib") (fun _ => .ok [badYearEntry])
      ⟨none, none, none⟩ [] = .error .valueError := by decide

/-- C10 (amended): the three bucket keys distinguish outcomes *provided
every record processes without error*: a successful parse whose records
all format and year-parse successfully sets all three keys (each to the
empty list for a zero-entry file), while a whole-file parse failure or an
absent configuration creates none of the keys and leaves the context
unchanged. -/
theorem context_keys (path : String) (parseFile : String → ParseResult)
    (ctx : Ctx) (logs : List String) :
    (∀ entries p r u, parseFile path = .ok entries →
       runPipeline entries = .ok (p, r, u) →
       add_publications (some path) parseFile ctx logs
         = .ok (⟨some (sortDesc p), some (sortDesc r), some (sortDesc u)⟩,
                logs, [path])) ∧
    (parseFile path = .ok [] →
       add_publications (some path) parseFile ctx logs
         = .ok (⟨some [], some [], some []⟩, logs, [path])) ∧
    (∀ msg, parseFile path = .err msg →
       add_publications (some path) parseFile ctx logs
         = .ok (ctx, logs ++ [warnMsg path msg], [path])) ∧
    add_publications none parseFile ctx logs = .ok (ctx, logs, []) := by
  refine ⟨?_, ?_, ?_, rfl⟩
  · intro entries p r u hp hr
    simp [add_publications, hp, hr]
  · intro hp
    simp [add_publications, hp, runPipeline, sortDesc, List.insertionSort]
  · intro msg hp
    simp [add_publications, hp]

/-- C10 witness: the amended theorem at concrete runs — an empty parsed
file sets the three keys to empty lists; a parse failure logs one warning
and leaves the context unchanged. -/
theorem context_keys_witness :
    (add_publications (some "ok.bib") (fun _ => .ok []) ⟨none, none, none⟩ []
       = .ok (⟨some [], some [], some []⟩, [], ["ok.bib"])) ∧
    (add_publications (some "bad.bib") (fun _ => .err "bad syntax")
        ⟨none, none, none⟩ []
       = .ok (⟨none, none, none⟩, [warnMsg "bad.bib" "bad syntax"], ["bad.bib"])) :=
  ⟨(context_keys "ok.bib" (fun _ => .ok []) ⟨none, none, none⟩ []).2.1 rfl,
   (context_keys "bad.bib" (fun _ => .err "bad syntax") ⟨none, none, none⟩ []).2.2.1
     "bad syntax" rfl⟩
